import Mathlib

/-!
Shallow embedding of the salonchat retrieval-augmented chat pipeline.

The primary source is the Cloudflare Worker backend
(`salon-chat-backend.js`, src/unnamed/part_010): `handleChatMessage`,
`searchRelevantServices`, `generateEmbedding`, `generateAIResponse`,
`getChatHistory`, `clearChatSession`.  The Express controller variant
(src/unnamed/part_001) is embedded where the claims cite it
(`clearChatSession`).

External dependencies (Workers AI embedding and completion, Vectorize,
OpenAI) are modelled as oracles inside `Env`: each call either throws or
returns a value.  D1 (`SALON_DB`) is modelled as an explicit `Db` value
threaded through the handlers; per-statement failures are injected by
boolean flags in `Env`.  The JSON round trip of the `messages` column is
modelled by `StoredMessages`: `valid l` stands for the JSON encoding of
the turn list `l` (parse of stringify is the identity for these
objects), `malformed` stands for a stored string that fails
`JSON.parse`.  Handlers additionally return a `List Event` trace
recording, in program order, the externally visible steps (history read,
in-memory user append, embed / vector-query / hydration attempts,
completion attempts with the messages sent, the durable session write);
the temporal claims are stated over this trace.

HTTP responses are modelled as `Except ErrResp _`: `Except.ok` is an
HTTP 200 JSON response, `Except.error ⟨s, e⟩` a response with status `s`
and error body `e`.  The embedding of `handleChatMessage` starts after
the request body has been parsed into `ChatRequest` (the body-text and
JSON-parse 400 paths of lines 131-152 concern the raw body, not the
`message` field, and no claim depends on them).
-/

/-- Outcome of a single external call: the JS call either throws
(or times out, which the worker runtime surfaces as a throw) or
returns a value. -/
inductive CallResult (α : Type) where
  | throws
  | returns (a : α)
deriving Repr, DecidableEq, BEq

/-- One stored conversation turn, `{ role, content }` as pushed by
`handleChatMessage` (part_010 lines 207 and 219; no timestamp is stored
by the worker). -/
structure Turn where
  role : String
  content : String
deriving Repr, DecidableEq, BEq

/-- The `messages` column of `chat_sessions`: `valid l` is the JSON
string produced by `JSON.stringify` on the turn list `l` (so parsing it
yields `l` again); `malformed` is a stored value that `JSON.parse`
rejects. -/
inductive StoredMessages where
  | valid (msgs : List Turn)
  | malformed
deriving Repr, DecidableEq, BEq

/-- A row of the `chat_sessions` table (part_010 lines 1034-1041). -/
structure SessionRow where
  id : String
  messages : StoredMessages
  created_at : Int
  updated_at : Int
deriving Repr, DecidableEq, BEq

/-- One add-on entry of a service's `details.optional_addons`
(part_010 lines 492-497). -/
structure Addon where
  name : String
  price : String
  description : Option String
deriving Repr, DecidableEq, BEq

/-- The well-known optional fields of a parsed `details` payload
(part_010 lines 484-505); unknown fields are ignored by the code and so
are not modelled. -/
structure ServiceDetails where
  unit : Option String
  treatment_options : Option (List String)
  optional_addons : Option (List Addon)
  not_for : Option (List String)
  with_new_growth : Option String
deriving Repr, DecidableEq, BEq

/-- The `details` column of a service row: absent, present but not
valid JSON (the `JSON.parse` in part_010 line 479 throws and the catch
at 506 skips every detail line), or parsed. -/
inductive DetailsField where
  | absent
  | malformed
  | parsed (d : ServiceDetails)
deriving Repr, DecidableEq, BEq

/-- A row of the `salon_services` catalog table as consumed by
`generateAIResponse` (part_010 lines 468-509); the price line uses
`price_from || price`. -/
structure SalonService where
  id : String
  name : String
  category : String
  price_from : Option String
  price : String
  description : String
  details : DetailsField
deriving Repr, DecidableEq, BEq

/-- The D1 database `SALON_DB`: `chat_sessions`, `salon_services` and
`settings` tables. -/
structure Db where
  sessions : List SessionRow
  services : List SalonService
  settings : List (String × String)
deriving Repr, DecidableEq, BEq

/-- Externally visible steps of one `handleChatMessage` run, in program
order.  `complete` records the model identifier and the role-tagged
message list sent to the completion provider; `persist` records the
session id and turn list written durably to `chat_sessions`. -/
inductive Event where
  | readHistory
  | appendUser
  | embed
  | vectorQ
  | hydrate
  | complete (model : String) (messages : List Turn)
  | persist (id : String) (msgs : List Turn)
deriving Repr, DecidableEq, BEq

/-- The request environment: external-call oracles, failure-injection
flags for the individual D1 statements, and the nondeterministic inputs
(the freshly generated UUID, the clock, the development-mode mock
embedding vector). -/
structure Env where
  development : Bool
  openaiKey : Bool
  embedCall : CallResult (Option (List Int))
  devMockVec : List Int
  vectorQuery : List Int → CallResult (List String)
  aiRun : String → List Turn → CallResult String
  openaiCall : CallResult String
  historyReadFails : Bool
  servicesSelectFails : Bool
  settingsReadFails : Bool
  saveFails : Bool
  deleteFails : Bool
  freshId : String
  now : Int

/-- The `message` field of the parsed `POST /chat` body: absent (or a
falsy non-string such as `null`), present but not a string, or a
string. -/
inductive MsgField where
  | absent
  | notString
  | str (s : String)
deriving Repr, DecidableEq, BEq

/-- The parsed `POST /chat` request body `{ message, sessionId, model }`.
`sessionId = none` models an absent/`null` field, `some ""` the empty
string. -/
structure ChatRequest where
  message : MsgField
  sessionId : Option String
  model : Option String
deriving Repr, DecidableEq, BEq

/-- An HTTP error response: status code plus `error` body field. -/
structure ErrResp where
  status : Nat
  error : String
deriving Repr, DecidableEq, BEq

/-- The 200 response body of `POST /chat`:
`{ sessionId, isNewSession, message }`. -/
structure ChatOk where
  sessionId : String
  isNewSession : Bool
  message : String
deriving Repr, DecidableEq, BEq

/-- part_010 line 11. -/
def DEFAULT_MODEL : String := "@cf/meta/llama-3.1-8b-instruct"

/-- part_010 line 15. -/
def MAX_RELEVANT_DOCS : Nat := 3

/-- The development-mode mock reply (part_010 lines 619, 669, 677). -/
def MOCK_REPLY : String :=
  "I\x27d be happy to help you find the perfect hair service for your needs at Apotheca Salon. Could you tell me more about what you\x27re looking for?"

/-- The reply substituted when the provider returns a falsy response
(part_010 line 685, the right operand of the final or-else). -/
def EMPTY_RESPONSE_REPLY : String :=
  "As an expert hairstylist at Apotheca Salon, I\x27d love to help you find the perfect service for your hair needs. What are you looking for today?"

/-- The fixed apologetic fallback returned by the outer catch of
`generateAIResponse` (part_010 line 688). -/
def APOLOGY : String :=
  "I\x27m sorry, I\x27m having trouble processing your request right now. Please try again later or contact Apotheca Salon directly at (555) 123-4567 for assistance."

/-- One `optional_addons` line (part_010 line 495); the description is
appended only when truthy. -/
def addonLine (a : Addon) : String :=
  "- " ++ a.name ++ ": $" ++ a.price ++
    (match a.description with
     | some d => if d = "" then "" else " (" ++ d ++ ")"
     | none => "") ++ "\n"

/-- The labeled detail lines of one service (part_010 lines 484-505);
`unit` and `with_new_growth` are rendered only when truthy, the three
array fields only when present (the `Array.isArray` guards). -/
def detailLines (d : ServiceDetails) : String :=
  (match d.unit with
   | some u => if u = "" then "" else "Priced per: " ++ u ++ "\n"
   | none => "") ++
  (match d.treatment_options with
   | some ts => "Treatment options: " ++ String.intercalate ", " ts ++ "\n"
   | none => "") ++
  (match d.optional_addons with
   | some addons => "Optional add-ons:\n" ++ String.join (addons.map addonLine)
   | none => "") ++
  (match d.not_for with
   | some ns => "Not suitable for: " ++ String.intercalate ", " ns ++ "\n"
   | none => "") ++
  (match d.with_new_growth with
   | some w => if w = "" then "" else "Price with new growth: $" ++ w ++ "\n"
   | none => "")

/-- The context paragraph of one hydrated service (part_010 lines
469-511). -/
def serviceContext (s : SalonService) : String :=
  "Service: " ++ s.name ++ "\n" ++
  "Category: " ++ s.category ++ "\n" ++
  "Price: " ++ (match s.price_from with
                | some p => if p = "" then s.price else p
                | none => s.price) ++ "\n" ++
  "Description: " ++ s.description ++ "\n" ++
  (match s.details with
   | DetailsField.absent => ""
   | DetailsField.malformed => ""
   | DetailsField.parsed d => detailLines d) ++
  "\n"

/-- The context block built from the hydrated services, or the
context-free variant when retrieval yielded nothing (part_010 lines
465-515). -/
def contextText (services : List SalonService) : String :=
  if services.isEmpty then
    "I don\x27t have specific information about salon services matching your query, but as an expert hairstylist I can still help you.\n\n"
  else
    "Here is information about relevant salon services:\n\n" ++
      String.join (services.map serviceContext)

/-- The fixed instructional preamble of the system prompt (part_010
lines 518-541), reproduced verbatim including trailing blanks and the
`lengthand` typo. -/
def SYSTEM_PREAMBLE : String :=
  "You are an expert hairstylist AI chatbot integrated into Apotheca Salon\x27s website, https://apothecaatx.com.\n" ++
  "You will converse with clients and help them determine what they want for their hair color, haircut, lashes, eyebrows, etc.\n" ++
  "Help them choose what service they need to book on our online booking website.\n" ++
  "Be friendly, professional, and use your expertise to guide the client based on their hair needs, concerns, and goals.\n" ++
  "Respond conversationally! Do not be too verbose. Be kind, considerate, and friendly.\n" ++
  "Ask clarifying questions when needed. Make specific service recommendations. \n" ++
  "\n" ++
  "When using a service name, bold it. When showing a price, bold it.\n" ++
  "\n" ++
  "Book appointments based on current length, not desired length. If there\x27s a major change in length, such as going from long to short, suggest a Transformation service, or otherwise a long/medium cut. \n" ++
  "We book cuts based on current length, not desired length.\n" ++
  "\n" ++
  "Do not hallucinate services, only suggest specific service names from the list of services. \n" ++
  "All services offer Razor Cut within the service. \n" ++
  "\n" ++
  "When recommending services, take into account:\n" ++
  "- The client\x27s hair type, current length, desired lengthand condition\n" ++
  "- Their desired outcome\n" ++
  "- Any previous treatments they\x27ve had\n" ++
  "- Their maintenance preferences\n" ++
  "- Any specific concerns they mention\n" ++
  "- Any specific hair goals they mention\n" ++
  "\n" ++
  "\n"

/-- The synthesized system prompt: preamble followed by the context
block (part_010 line 542). -/
def systemPrompt (services : List SalonService) : String :=
  SYSTEM_PREAMBLE ++ contextText services

/-- `generateEmbedding` (part_010 lines 439-457): on success the
embedding is `response.data[0]` (possibly absent); when the call throws,
development mode substitutes a mock vector, otherwise a 768-dimension
zero vector is returned.  It never rethrows and never retries. -/
def generateEmbedding (env : Env) : Option (List Int) × List Event :=
  match env.embedCall with
  | CallResult.returns v => (v, [Event.embed])
  | CallResult.throws =>
      (some (if env.development then env.devMockVec else List.replicate 768 0),
       [Event.embed])

/-- The development-mode mock service row (part_010 lines 401-409 and
418-426). -/
def mockDevService : SalonService :=
  { id := "mock-1"
    name := "Classic Shampoo Style"
    category := "Hair Styling"
    price_from := none
    price := "From $42"
    description := "Revitalize your hair with our luxurious Classic Shampoo & Style service."
    details := DetailsField.absent }

/-- `searchRelevantServices` (part_010 lines 364-434): embed the query,
query Vectorize, then hydrate the returned ids from `salon_services`
with `SELECT * FROM salon_services WHERE id IN (...)` — modelled as a
filter of the catalog rows in table order, so ids with no matching row
are dropped.  Every failure degrades to the empty list (or the mock row
in development mode). -/
def searchRelevantServices (env : Env) (db : Db) (query : String) :
    List SalonService × List Event :=
  match generateEmbedding env with
  | (none, ev) => ([], ev)
  | (some v, ev) =>
      match env.vectorQuery v with
      | CallResult.throws =>
          ((if env.development then [mockDevService] else []), ev ++ [Event.vectorQ])
      | CallResult.returns ids =>
          if ids.isEmpty then ([], ev ++ [Event.vectorQ])
          else if env.servicesSelectFails then
            ((if env.development then [mockDevService] else []),
             ev ++ [Event.vectorQ, Event.hydrate])
          else
            (db.services.filter (fun s => ids.contains s.id),
             ev ++ [Event.vectorQ, Event.hydrate])

/-- The settings-table lookup of `current_model` inside
`generateAIResponse` (part_010 lines 556-572): a read failure or a
missing/falsy row yields the fixed default model. -/
def resolveFromSettings (env : Env) (db : Db) : String :=
  if env.settingsReadFails then DEFAULT_MODEL
  else
    match db.settings.find? (fun kv => kv.1 == "current_model") with
    | some kv => if kv.2 = "" then DEFAULT_MODEL else kv.2
    | none => DEFAULT_MODEL

/-- Model resolution (part_010 lines 553-572): a truthy request-level
model wins, otherwise the persisted setting, otherwise the default. -/
def resolveModel (env : Env) (db : Db) (model? : Option String) : String :=
  match model? with
  | some m => if m = "" then resolveFromSettings env db else m
  | none => resolveFromSettings env db

/-- `generateAIResponse` (part_010 lines 462-690).  Builds the system
prompt from the hydrated services, prepends it to the history, resolves
the model, and calls the completion provider: the OpenAI path when a key
is configured (fixed model `gpt-3.5-turbo`), otherwise Workers AI with
the resolved model, retrying once with `DEFAULT_MODEL` when a
non-default model throws.  A falsy successful response is replaced by
`EMPTY_RESPONSE_REPLY` (line 685); a throw that survives the retry is
absorbed by the outer catch into `APOLOGY` (line 688), except that
development mode substitutes `MOCK_REPLY` first.  Generation parameters
(max tokens, temperature, ...) are passed through to the provider and do
not influence control flow, so they are elided from the oracle call. -/
def generateAIResponse (env : Env) (db : Db) (message : String)
    (services : List SalonService) (history : List Turn)
    (model? : Option String) : String × List Event :=
  let msgs : List Turn := Turn.mk "system" (systemPrompt services) :: history
  let currentModel := resolveModel env db model?
  if env.openaiKey then
    match env.openaiCall with
    | CallResult.returns r =>
        (if r = "" then EMPTY_RESPONSE_REPLY else r,
         [Event.complete "gpt-3.5-turbo" msgs])
    | CallResult.throws =>
        (if env.development then MOCK_REPLY else APOLOGY,
         [Event.complete "gpt-3.5-turbo" msgs])
  else
    match env.aiRun currentModel msgs with
    | CallResult.returns r =>
        (if r = "" then EMPTY_RESPONSE_REPLY else r,
         [Event.complete currentModel msgs])
    | CallResult.throws =>
        if currentModel ≠ DEFAULT_MODEL then
          match env.aiRun DEFAULT_MODEL msgs with
          | CallResult.returns r =>
              (if r = "" then EMPTY_RESPONSE_REPLY else r,
               [Event.complete currentModel msgs, Event.complete DEFAULT_MODEL msgs])
          | CallResult.throws =>
              (if env.development then MOCK_REPLY else APOLOGY,
               [Event.complete currentModel msgs, Event.complete DEFAULT_MODEL msgs])
        else
          (if env.development then MOCK_REPLY else APOLOGY,
           [Event.complete currentModel msgs])

/-- Find the `chat_sessions` row with the given primary key. -/
def findRow (rows : List SessionRow) (sid : String) : Option SessionRow :=
  rows.find? (fun r => r.id == sid)

/-- The chat history as read by `handleChatMessage` (part_010 lines
176-204): no row or an unparseable `messages` column both yield the
empty history. -/
def readStoredTurns (db : Db) (sid : String) : List Turn :=
  match findRow db.sessions sid with
  | some row =>
      match row.messages with
      | StoredMessages.valid l => l
      | StoredMessages.malformed => []
  | none => []

/-- The `INSERT ... ON CONFLICT (id) DO UPDATE` upsert of part_010 lines
225-236 on the row list: an existing row keeps its `created_at` and gets
the new `messages` and `updated_at`; otherwise a fresh row is
appended. -/
def upsertRows (rows : List SessionRow) (sid : String) (msgs : List Turn)
    (now : Int) : List SessionRow :=
  match rows with
  | [] => [⟨sid, StoredMessages.valid msgs, now, now⟩]
  | r :: rs =>
      if r.id = sid then
        { r with messages := StoredMessages.valid msgs, updated_at := now } :: rs
      else
        r :: upsertRows rs sid msgs now

/-- The session upsert on the whole database. -/
def upsertSession (db : Db) (sid : String) (msgs : List Turn) (now : Int) : Db :=
  { db with sessions := upsertRows db.sessions sid msgs now }

/-- `handleChatMessage` (part_010 lines 127-269), starting from the
parsed request body.  A falsy `sessionId` is replaced by a fresh UUID
(`env.freshId`); a missing or non-string `message` is a 400; the stored
history is read (failures and parse errors degrade to empty), the user
turn is appended in memory, retrieval and generation run, the assistant
turn is appended, and the whole transcript is upserted (a write failure
is swallowed).  `isNewSession` is the strict inequality between the
resolved and the supplied session id (line 244). -/
def handleChatMessage (env : Env) (db : Db) (req : ChatRequest) :
    Except ErrResp ChatOk × Db × List Event :=
  let sessionId := match req.sessionId with
    | some s => if s = "" then env.freshId else s
    | none => env.freshId
  match req.message with
  | MsgField.absent => (Except.error ⟨400, "Message is required"⟩, db, [])
  | MsgField.notString => (Except.error ⟨400, "Message is required"⟩, db, [])
  | MsgField.str m =>
      if m = "" then (Except.error ⟨400, "Message is required"⟩, db, [])
      else
        let chatHistory := if env.historyReadFails then [] else readStoredTurns db sessionId
        let history1 := chatHistory ++ [Turn.mk "user" m]
        let sr := searchRelevantServices env db m
        let gen := generateAIResponse env db m sr.1 history1 req.model
        let history2 := history1 ++ [Turn.mk "assistant" gen.1]
        let db2 := if env.saveFails then db else upsertSession db sessionId history2 env.now
        let isNewSession := match req.sessionId with
          | some s => sessionId != s
          | none => true
        (Except.ok ⟨sessionId, isNewSession, gen.1⟩, db2,
         [Event.readHistory, Event.appendUser] ++ sr.2 ++ gen.2 ++
           [Event.persist sessionId history2])

/-- `getChatHistory` (part_010 lines 274-330): 404 when no row (or a
falsy `messages` column) exists, 500 when the stored JSON does not
parse, otherwise the stored turns. -/
def getChatHistory (env : Env) (db : Db) (sessionId : String) :
    Except ErrResp (String × List Turn) :=
  if env.historyReadFails then
    Except.error ⟨500, "Failed to retrieve chat history"⟩
  else
    match findRow db.sessions sessionId with
    | none => Except.error ⟨404, "Chat session not found"⟩
    | some row =>
        match row.messages with
        | StoredMessages.malformed => Except.error ⟨500, "Invalid chat history format"⟩
        | StoredMessages.valid msgs => Except.ok (sessionId, msgs)

/-- `clearChatSession` of the Worker (part_010 lines 335-357):
`DELETE FROM chat_sessions WHERE id = ?` followed by an unconditional
200; only a database failure yields a 500. -/
def clearChatSession (env : Env) (db : Db) (sessionId : String) :
    Except ErrResp (String × String) × Db :=
  if env.deleteFails then
    (Except.error ⟨500, "Failed to clear chat session"⟩, db)
  else
    (Except.ok (sessionId, "cleared"),
     { db with sessions := db.sessions.filter (fun r => r.id != sessionId) })

/-- A session of the Express controller variant (part_001 lines 34-39). -/
structure ExpressSession where
  id : String
  messages : List Turn
  createdAt : Int
  lastUpdated : Int
deriving Repr, DecidableEq, BEq

/-- `clearChatSession` of the Express controller (part_001 lines
220-256): 400 on a missing token, 404 when the session is not in the
map, otherwise the session is reset to an empty message list (keeping
its id and creation date) and 200 is returned.  The result is the HTTP
status together with the updated session map. -/
def expressClearChatSession (sessions : List (String × ExpressSession))
    (sessionToken : String) (now : Int) :
    Nat × List (String × ExpressSession) :=
  if sessionToken = "" then (400, sessions)
  else if sessions.any (fun p => p.1 == sessionToken) then
    (200, sessions.map (fun p =>
      if p.1 = sessionToken then
        (p.1, { id := sessionToken, messages := [],
                createdAt := p.2.createdAt, lastUpdated := now })
      else p))
  else (404, sessions)

/-- Does the event complete a model call? -/
def isComplete (e : Event) : Bool :=
  match e with
  | Event.complete _ _ => true
  | _ => false

/-- Is the event a durable session write? -/
def isPersist (e : Event) : Bool :=
  match e with
  | Event.persist _ _ => true
  | _ => false

/-- Whether some durable session write occurs strictly before the first
completion attempt of the trace. -/
def persistedBeforeCompletion (tr : List Event) : Bool :=
  (tr.takeWhile (fun e => !(isComplete e))).any isPersist

/-- The model identifier of a completion event. -/
def completionModel (e : Event) : Option String :=
  match e with
  | Event.complete mo _ => some mo
  | _ => none

/-- The `POST /chat` request used when driving several turns through the
pipeline on one session. -/
def chatReq (sid m : String) : ChatRequest :=
  { message := MsgField.str m, sessionId := some sid, model := none }

/-- Run a list of user messages through `handleChatMessage`
sequentially on one session, threading the database, and collect the
user/assistant turn pairs of the successful responses. -/
def runChatsAcc (env : Env) (db : Db) (sid : String) :
    List String → Db × List Turn
  | [] => (db, [])
  | m :: ms =>
      let out := handleChatMessage env db (chatReq sid m)
      match out.1 with
      | Except.ok r =>
          let rest := runChatsAcc env out.2.1 sid ms
          (rest.1, Turn.mk "user" m :: Turn.mk "assistant" r.message :: rest.2)
      | Except.error _ => (out.2.1, [])

/-- The empty database. -/
def dbEmpty : Db := ⟨[], [], []⟩

/-- A baseline environment in which every dependency succeeds: the
embedding call returns a response without data (so retrieval is skipped
with an empty set), both completion oracles reply, and no database
statement fails. -/
def envBase : Env :=
  { development := false
    openaiKey := false
    embedCall := CallResult.returns none
    devMockVec := []
    vectorQuery := fun _ => CallResult.returns []
    aiRun := fun _ _ => CallResult.returns "Sure!"
    openaiCall := CallResult.returns "Sure!"
    historyReadFails := false
    servicesSelectFails := false
    settingsReadFails := false
    saveFails := false
    deleteFails := false
    freshId := "fresh-session-id"
    now := 1700000000 }

/-- An environment in which every external dependency and every
database statement fails. -/
def envAllFail : Env :=
  { envBase with
    embedCall := CallResult.throws
    vectorQuery := fun _ => CallResult.throws
    aiRun := fun _ _ => CallResult.throws
    openaiCall := CallResult.throws
    historyReadFails := true
    servicesSelectFails := true
    settingsReadFails := true
    saveFails := true
    deleteFails := true }

/-- A catalog row used by the retrieval claims. -/
def svcGel : SalonService :=
  { id := "svc-1"
    name := "Gel Manicure"
    category := "Nails"
    price_from := none
    price := "From $30"
    description := "A long-lasting gel manicure."
    details := DetailsField.absent }

/-- Environment for the embedding-failure claim: the embedding call
throws, the vector query matches the catalog row. -/
def envC5 : Env :=
  { envBase with
    embedCall := CallResult.throws
    vectorQuery := fun _ => CallResult.returns ["svc-1"] }

/-- Database holding the one catalog row. -/
def dbC5 : Db := ⟨[], [svcGel], []⟩

/-- Environment for the dangling-id claim: the embedding succeeds and
the vector query returns one catalog id and one dangling id. -/
def envC6 : Env :=
  { envBase with
    embedCall := CallResult.returns (some [1, 2])
    vectorQuery := fun _ => CallResult.returns ["svc-1", "ghost-id"] }

/-- Environment for the model-retry claim: every Workers AI completion
call throws, everything else succeeds. -/
def envC4 : Env :=
  { envBase with aiRun := fun _ _ => CallResult.throws }

/-- A database holding a session row whose `messages` column is not
valid JSON. -/
def dbMalformed : Db := ⟨[⟨"sess-bad", StoredMessages.malformed, 0, 0⟩], [], []⟩

/-- A database holding one existing session with two stored turns. -/
def dbOneSession : Db :=
  ⟨[⟨"sess-1", StoredMessages.valid [Turn.mk "user" "hi", Turn.mk "assistant" "hello"], 5, 6⟩],
   [], []⟩

/-! ## Helper lemmas -/

theorem MOCK_REPLY_ne_empty : MOCK_REPLY ≠ "" := by decide

theorem APOLOGY_ne_empty : APOLOGY ≠ "" := by decide

theorem EMPTY_RESPONSE_REPLY_ne_empty : EMPTY_RESPONSE_REPLY ≠ "" := by decide

/-- Every control path of `generateAIResponse` yields a non-empty reply:
successful completions are non-empty or replaced by
`EMPTY_RESPONSE_REPLY`, failures end in `MOCK_REPLY` or `APOLOGY`. -/
theorem generateAIResponse_fst_ne_empty (env : Env) (db : Db) (message : String)
    (services : List SalonService) (history : List Turn) (model? : Option String) :
    (generateAIResponse env db message services history model?).1 ≠ "" := by
  unfold generateAIResponse
  dsimp only
  by_cases hk : env.openaiKey = true
  · simp only [hk, if_true]
    cases ho : env.openaiCall with
    | returns r =>
        by_cases hr : r = "" <;>
          simp [hr, EMPTY_RESPONSE_REPLY_ne_empty]
    | throws =>
        by_cases hd : env.development = true <;>
          simp [hd, MOCK_REPLY_ne_empty, APOLOGY_ne_empty]
  · simp only [hk, if_false, Bool.not_eq_true] at *
    simp only [hk, Bool.false_eq_true, if_false]
    cases h1 : env.aiRun (resolveModel env db model?)
        (Turn.mk "system" (systemPrompt services) :: history) with
    | returns r =>
        by_cases hr : r = "" <;>
          simp [hr, EMPTY_RESPONSE_REPLY_ne_empty]
    | throws =>
        by_cases hm : resolveModel env db model? = DEFAULT_MODEL
        · by_cases hd : env.development = true <;>
            simp [hm, hd, MOCK_REPLY_ne_empty, APOLOGY_ne_empty]
        · simp only [hm, ne_eq, not_false_iff, if_true]
          cases h2 : env.aiRun DEFAULT_MODEL
              (Turn.mk "system" (systemPrompt services) :: history) with
          | returns r =>
              by_cases hr : r = "" <;>
                simp [hr, EMPTY_RESPONSE_REPLY_ne_empty]
          | throws =>
              by_cases hd : env.development = true <;>
                simp [hd, MOCK_REPLY_ne_empty, APOLOGY_ne_empty]

/-- Any request with a non-empty string message produces a 200 response
whose reply is non-empty, whatever the environment does. -/
theorem handleChat_replies (env : Env) (db : Db) (req : ChatRequest) (m : String)
    (hm : req.message = MsgField.str m) (hne : m ≠ "") :
    ∃ ok : ChatOk, (handleChatMessage env db req).1 = Except.ok ok ∧ ok.message ≠ "" := by
  unfold handleChatMessage
  rw [hm]
  simp only [hne, if_false, reduceIte]
  exact ⟨_, rfl, generateAIResponse_fst_ne_empty _ _ _ _ _ _⟩

/-- The upsert always leaves a row for the written session id, holding
exactly the written turn list. -/
theorem findRow_upsertRows (rows : List SessionRow) (sid : String) (msgs : List Turn)
    (now : Int) :
    ∃ row : SessionRow, findRow (upsertRows rows sid msgs now) sid = some row ∧
      row.id = sid ∧ row.messages = StoredMessages.valid msgs := by
  induction rows with
  | nil =>
      exact ⟨⟨sid, StoredMessages.valid msgs, now, now⟩,
        by simp [upsertRows, findRow, List.find?], rfl, rfl⟩
  | cons r rs ih =>
      by_cases h : r.id = sid
      · refine ⟨{ r with messages := StoredMessages.valid msgs, updated_at := now },
          ?_, h, rfl⟩
        simp [upsertRows, h, findRow, List.find?]
      · obtain ⟨row, hfind, hid, hmsgs⟩ := ih
        refine ⟨row, ?_, hid, hmsgs⟩
        simpa [upsertRows, h, findRow, List.find?] using hfind

/-- Reading back the turns of an upserted session yields exactly the
written list. -/
theorem readStoredTurns_upsertSession (db : Db) (sid : String) (msgs : List Turn)
    (now : Int) :
    readStoredTurns (upsertSession db sid msgs now) sid = msgs := by
  obtain ⟨row, hfind, _, hmsgs⟩ := findRow_upsertRows db.sessions sid msgs now
  simp [readStoredTurns, upsertSession, hfind, hmsgs]

/-! ## Claim theorems -/

/-- C1: for every `POST /chat` request whose `message` field is a
non-empty string, `handleChatMessage` returns HTTP 200 (`Except.ok`)
with a non-empty reply.  The environment is universally quantified, so
this holds in particular when the embedding call, the vector-index query
and all completion calls throw, and no dependency failure is ever
surfaced as an HTTP error. -/
theorem c1_chat_always_replies (env : Env) (db : Db) (req : ChatRequest) (m : String)
    (hm : req.message = MsgField.str m) (hne : m ≠ "") :
    ∃ ok : ChatOk, (handleChatMessage env db req).1 = Except.ok ok ∧ ok.message ≠ "" :=
  handleChat_replies env db req m hm hne

/-- Witness for C1 at the environment in which every dependency and
every database statement fails. -/
theorem c1_chat_always_replies_witness :
    ∃ ok : ChatOk,
      (handleChatMessage envAllFail dbEmpty ⟨MsgField.str "hello", none, none⟩).1 =
        Except.ok ok ∧ ok.message ≠ "" :=
  c1_chat_always_replies envAllFail dbEmpty ⟨MsgField.str "hello", none, none⟩ "hello"
    rfl (by decide)

/-- C2 counterexample: in a run with every dependency healthy, the
trace contains a completion attempt, but no durable session write
occurs before the first completion attempt — the user turn is written
to the session store only after generation, so the message is not
durably recorded before the completion call as claimed. -/
theorem c2_counterexample :
    ((handleChatMessage envBase dbEmpty ⟨MsgField.str "hi", none, none⟩).2.2.any
        isComplete = true) ∧
    persistedBeforeCompletion
      (handleChatMessage envBase dbEmpty ⟨MsgField.str "hi", none, none⟩).2.2 = false := by
  exact ⟨rfl, rfl⟩

/-- C2 (amended): the user turn is appended to the in-memory transcript
before any completion attempt (no completion event precedes the
`appendUser` event), and — because generation failures are absorbed —
the single durable write after generation still lands the user turn in
the persisted transcript whenever the write itself succeeds. -/
theorem c2_amended_user_turn_before_completion (env : Env) (db : Db) (req : ChatRequest)
    (m : String) (hm : req.message = MsgField.str m) (hne : m ≠ "")
    (hs : env.saveFails = false) :
    (((handleChatMessage env db req).2.2.takeWhile
        (fun e => e != Event.appendUser)).all (fun e => !(isComplete e)) = true) ∧
    ∃ ok : ChatOk, (handleChatMessage env db req).1 = Except.ok ok ∧
      Turn.mk "user" m ∈ readStoredTurns (handleChatMessage env db req).2.1 ok.sessionId := by
  unfold handleChatMessage
  rw [hm]
  simp only [hne, if_false, reduceIte, hs, Bool.false_eq_true]
  refine ⟨rfl, _, rfl, ?_⟩
  rw [readStoredTurns_upsertSession]
  simp

/-- Witness for C2 (amended) at a concrete healthy run. -/
theorem c2_amended_witness :
    (((handleChatMessage envBase dbEmpty ⟨MsgField.str "hi", none, none⟩).2.2.takeWhile
        (fun e => e != Event.appendUser)).all (fun e => !(isComplete e)) = true) ∧
    ∃ ok : ChatOk,
      (handleChatMessage envBase dbEmpty ⟨MsgField.str "hi", none, none⟩).1 =
        Except.ok ok ∧
      Turn.mk "user" "hi" ∈
        readStoredTurns (handleChatMessage envBase dbEmpty
          ⟨MsgField.str "hi", none, none⟩).2.1 ok.sessionId :=
  c2_amended_user_turn_before_completion envBase dbEmpty ⟨MsgField.str "hi", none, none⟩
    "hi" rfl (by decide) rfl

/-- C3 counterexample: a supplied session id that is unknown to the
store is kept — no fresh id is allocated — and `isNewSession` is
`false`, although the id was unknown. -/
theorem c3_counterexample :
    findRow dbEmpty.sessions "unknown-session" = none ∧
    (handleChatMessage envBase dbEmpty
        ⟨MsgField.str "hi", some "unknown-session", none⟩).1 =
      Except.ok ⟨"unknown-session", false, "Sure!"⟩ ∧
    "unknown-session" ≠ envBase.freshId := by
  refine ⟨rfl, rfl, by decide⟩

/-- C3 (amended): a fresh session id is allocated exactly when the
supplied id is absent or the empty string; an unknown non-empty id is
kept unchanged; and `isNewSession` is true iff a fresh id was
allocated. -/
theorem c3_amended_fresh_id_iff_absent_or_empty (env : Env) (db : Db) (req : ChatRequest)
    (m : String) (hm : req.message = MsgField.str m) (hne : m ≠ "")
    (hf : env.freshId ≠ "") :
    ∃ ok : ChatOk, (handleChatMessage env db req).1 = Except.ok ok ∧
      ok.sessionId = (match req.sessionId with
        | some s => if s = "" then env.freshId else s
        | none => env.freshId) ∧
      (ok.isNewSession = true ↔ (req.sessionId = none ∨ req.sessionId = some "")) := by
  unfold handleChatMessage
  rw [hm]
  simp only [hne, if_false, reduceIte]
  refine ⟨_, rfl, rfl, ?_⟩
  cases hsid : req.sessionId with
  | none => simp
  | some s =>
      by_cases h : s = ""
      · subst h
        simp [bne_iff_ne, hf]
      · simp [h]

/-- Witness for C3 (amended): an absent session id yields the fresh id
and `isNewSession = true`. -/
theorem c3_amended_witness :
    ∃ ok : ChatOk,
      (handleChatMessage envBase dbEmpty ⟨MsgField.str "hi", none, none⟩).1 =
        Except.ok ok ∧
      ok.sessionId = (match (⟨MsgField.str "hi", none, none⟩ : ChatRequest).sessionId with
        | some s => if s = "" then envBase.freshId else s
        | none => envBase.freshId) ∧
      (ok.isNewSession = true ↔
        ((⟨MsgField.str "hi", none, none⟩ : ChatRequest).sessionId = none ∨
          (⟨MsgField.str "hi", none, none⟩ : ChatRequest).sessionId = some "")) :=
  c3_amended_fresh_id_iff_absent_or_empty envBase dbEmpty ⟨MsgField.str "hi", none, none⟩
    "hi" rfl (by decide) (by decide)

/-- C8 counterexample: a whitespace-only message is accepted by the
worker — the handler returns 200, not the claimed 400. -/
theorem c8_counterexample :
    (handleChatMessage envBase dbEmpty ⟨MsgField.str " ", none, none⟩).1 =
      Except.ok ⟨"fresh-session-id", true, "Sure!"⟩ := rfl

/-- C8 (amended): the worker returns 400 exactly when the `message`
field is absent, not a string, or the empty string; a whitespace-only
message passes validation. -/
theorem c8_amended_400_iff_missing_or_empty (env : Env) (db : Db) (req : ChatRequest) :
    (handleChatMessage env db req).1 = Except.error ⟨400, "Message is required"⟩ ↔
      (req.message = MsgField.absent ∨ req.message = MsgField.notString ∨
        req.message = MsgField.str "") := by
  unfold handleChatMessage
  cases hm : req.message with
  | absent => simp
  | notString => simp
  | str s =>
      by_cases h : s = ""
      · subst h; simp
      · simp [h]

/-- The embedding step always emits exactly its one call event. -/
theorem generateEmbedding_snd (env : Env) : (generateEmbedding env).2 = [Event.embed] := by
  unfold generateEmbedding
  cases env.embedCall <;> rfl

/-- Retrieval never attempts a completion call. -/
theorem searchRelevantServices_no_complete (env : Env) (db : Db) (q : String) :
    (searchRelevantServices env db q).2.filterMap completionModel = [] := by
  unfold searchRelevantServices
  cases hge : generateEmbedding env with
  | mk emb ev =>
      have hev : ev = [Event.embed] := by
        have h := congrArg Prod.snd hge
        rw [generateEmbedding_snd] at h
        exact h.symm
      subst hev
      cases emb with
      | none => simp [completionModel]
      | some v =>
          cases hv : env.vectorQuery v with
          | throws => simp [hv, completionModel]
          | returns ids =>
              by_cases hemp : ids.isEmpty
              · simp [hv, hemp, completionModel]
              · by_cases hsel : env.servicesSelectFails = true
                · simp [hv, hemp, hsel, completionModel]
                · simp [hv, hemp, hsel, completionModel]

/-- When the selected model is non-default, non-empty and both Workers
AI calls throw outside development mode, generation attempts the
selected model, retries exactly once with the default model, and
returns the apologetic fallback. -/
theorem generateAIResponse_retry (env : Env) (db : Db) (message : String)
    (services : List SalonService) (history : List Turn) (mdl : String)
    (hmne : mdl ≠ "") (hmd : mdl ≠ DEFAULT_MODEL)
    (hoai : env.openaiKey = false) (hdev : env.development = false)
    (h1 : ∀ msgs, env.aiRun mdl msgs = CallResult.throws)
    (h2 : ∀ msgs, env.aiRun DEFAULT_MODEL msgs = CallResult.throws) :
    generateAIResponse env db message services history (some mdl) =
      (APOLOGY,
       [Event.complete mdl (Turn.mk "system" (systemPrompt services) :: history),
        Event.complete DEFAULT_MODEL (Turn.mk "system" (systemPrompt services) :: history)]) := by
  have hres : resolveModel env db (some mdl) = mdl := by
    simp [resolveModel, hmne]
  unfold generateAIResponse
  simp [hoai, hres, h1, h2, hmd, hdev]

/-- C4: when the request selects a non-default model and both the
selected-model call and the default-model call throw (no OpenAI key, not
development mode), the handler attempts completion exactly twice — the
selected model, then the fixed default model once — and still returns
HTTP 200 with the fixed apologetic fallback string as the reply. -/
theorem c4_retry_default_then_apology (env : Env) (db : Db) (req : ChatRequest)
    (m mdl : String)
    (hm : req.message = MsgField.str m) (hne : m ≠ "")
    (hmod : req.model = some mdl) (hmne : mdl ≠ "") (hmd : mdl ≠ DEFAULT_MODEL)
    (hoai : env.openaiKey = false) (hdev : env.development = false)
    (h1 : ∀ msgs, env.aiRun mdl msgs = CallResult.throws)
    (h2 : ∀ msgs, env.aiRun DEFAULT_MODEL msgs = CallResult.throws) :
    ∃ ok : ChatOk, (handleChatMessage env db req).1 = Except.ok ok ∧
      ok.message = APOLOGY ∧
      (handleChatMessage env db req).2.2.filterMap completionModel =
        [mdl, DEFAULT_MODEL] := by
  unfold handleChatMessage
  rw [hm, hmod]
  simp only [hne, if_false, reduceIte]
  rw [generateAIResponse_retry env db m _ _ mdl hmne hmd hoai hdev h1 h2]
  refine ⟨_, rfl, rfl, ?_⟩
  simp [List.filterMap_append, searchRelevantServices_no_complete, completionModel]

/-- Witness for C4: a concrete request for a non-default model against
an environment whose Workers AI completion always throws. -/
theorem c4_retry_default_then_apology_witness :
    ∃ ok : ChatOk,
      (handleChatMessage envC4 dbEmpty
          ⟨MsgField.str "hi", none, some "@cf/meta/llama-3.2-1b-instruct"⟩).1 =
        Except.ok ok ∧
      ok.message = APOLOGY ∧
      (handleChatMessage envC4 dbEmpty
          ⟨MsgField.str "hi", none, some "@cf/meta/llama-3.2-1b-instruct"⟩).2.2.filterMap
        completionModel = ["@cf/meta/llama-3.2-1b-instruct", DEFAULT_MODEL] :=
  c4_retry_default_then_apology envC4 dbEmpty
    ⟨MsgField.str "hi", none, some "@cf/meta/llama-3.2-1b-instruct"⟩
    "hi" "@cf/meta/llama-3.2-1b-instruct" rfl (by decide) rfl (by decide) (by decide)
    rfl rfl (fun _ => rfl) (fun _ => rfl)

/-- C5 counterexample: the embedding call throws, yet the retrieval set
is not empty — the pipeline substitutes a zero vector, proceeds to the
vector query and hydration (events `vectorQ` and `hydrate` occur), and
returns the matched catalog record as context. -/
theorem c5_counterexample :
    envC5.embedCall = CallResult.throws ∧
    (searchRelevantServices envC5 dbC5 "any query").1 = [svcGel] ∧
    (searchRelevantServices envC5 dbC5 "any query").2 =
      [Event.embed, Event.vectorQ, Event.hydrate] := by
  exact ⟨rfl, rfl, rfl⟩

/-- C5 (amended): when the embedding call throws outside development
mode, the pipeline substitutes the fixed 768-dimension zero vector and
continues with the vector query on it — the embedding call is attempted
exactly once (never retried) and the request is not aborted; the
retrieval set is whatever the zero-vector query yields (empty only when
the query fails, matches nothing, or hydration fails). -/
theorem c5_amended_zero_vector_fallback (env : Env) (db : Db) (q : String)
    (he : env.embedCall = CallResult.throws) (hd : env.development = false) :
    (searchRelevantServices env db q).1 =
      (match env.vectorQuery (List.replicate 768 0) with
       | CallResult.throws => []
       | CallResult.returns ids =>
          if ids.isEmpty then []
          else if env.servicesSelectFails = true then []
          else db.services.filter (fun s => ids.contains s.id)) ∧
    (searchRelevantServices env db q).2.count Event.embed = 1 := by
  unfold searchRelevantServices generateEmbedding
  rw [he]
  simp only [hd, Bool.false_eq_true, if_false]
  cases hv : env.vectorQuery (List.replicate 768 0) with
  | throws => exact ⟨by simp [hv, hd], by simp [hv]; decide⟩
  | returns ids =>
      by_cases hemp : ids.isEmpty
      · exact ⟨by simp [hv, hemp], by simp [hv, hemp]; decide⟩
      · by_cases hsel : env.servicesSelectFails = true
        · exact ⟨by simp [hv, hemp, hsel, hd], by simp [hv, hemp, hsel]; decide⟩
        · exact ⟨by simp [hv, hemp, hsel, hd], by simp [hv, hemp, hsel]; decide⟩

/-- Witness for C5 (amended) at the concrete failing-embedding
environment. -/
theorem c5_amended_witness :
    (searchRelevantServices envC5 dbC5 "any query").1 =
      (match envC5.vectorQuery (List.replicate 768 0) with
       | CallResult.throws => []
       | CallResult.returns ids =>
          if ids.isEmpty then []
          else if envC5.servicesSelectFails = true then []
          else dbC5.services.filter (fun s => ids.contains s.id)) ∧
    (searchRelevantServices envC5 dbC5 "any query").2.count Event.embed = 1 :=
  c5_amended_zero_vector_fallback envC5 dbC5 "any query" rfl rfl

/-- C6: when the vector query returns ids, hydration keeps exactly the
catalog rows whose id is among them — an id with no catalog record
contributes nothing to the context services — and the request still
completes with HTTP 200 and a non-empty reply. -/
theorem c6_dangling_ids_dropped (env : Env) (db : Db) (req : ChatRequest)
    (m : String) (v : List Int) (ids : List String)
    (hm : req.message = MsgField.str m) (hne : m ≠ "")
    (hemb : env.embedCall = CallResult.returns (some v))
    (hq : env.vectorQuery v = CallResult.returns ids)
    (hids : ids ≠ [])
    (hsel : env.servicesSelectFails = false) :
    (searchRelevantServices env db m).1 =
      db.services.filter (fun s => ids.contains s.id) ∧
    (∀ i ∈ ids, (∀ s ∈ db.services, s.id ≠ i) →
      ∀ s ∈ (searchRelevantServices env db m).1, s.id ≠ i) ∧
    ∃ ok : ChatOk, (handleChatMessage env db req).1 = Except.ok ok ∧ ok.message ≠ "" := by
  have hsearch : (searchRelevantServices env db m).1 =
      db.services.filter (fun s => ids.contains s.id) := by
    unfold searchRelevantServices generateEmbedding
    rw [hemb]
    simp [hq, hids, hsel]
  refine ⟨hsearch, ?_, handleChat_replies env db req m hm hne⟩
  intro i _ hnone s hs
  rw [hsearch] at hs
  exact hnone s (List.mem_filter.mp hs).1

/-- Witness for C6: a seeded index returning one catalog id and one
dangling id. -/
theorem c6_dangling_ids_dropped_witness :
    (searchRelevantServices envC6 dbC5 "hi").1 =
      dbC5.services.filter (fun s => (["svc-1", "ghost-id"] : List String).contains s.id) ∧
    (∀ i ∈ (["svc-1", "ghost-id"] : List String),
      (∀ s ∈ dbC5.services, s.id ≠ i) →
      ∀ s ∈ (searchRelevantServices envC6 dbC5 "hi").1, s.id ≠ i) ∧
    ∃ ok : ChatOk,
      (handleChatMessage envC6 dbC5 ⟨MsgField.str "hi", none, none⟩).1 = Except.ok ok ∧
      ok.message ≠ "" :=
  c6_dangling_ids_dropped envC6 dbC5 ⟨MsgField.str "hi", none, none⟩ "hi" [1, 2]
    ["svc-1", "ghost-id"] rfl (by decide) rfl rfl (by decide) rfl

/-- C7 counterexample: the Express controller variant of the clear
operation (part_001) returns 404 — a NotFound surfaced to the caller —
when the session does not exist, contradicting the claim that the clear
returns success regardless of prior existence. -/
theorem c7_counterexample :
    (expressClearChatSession [] "some-session" 0).1 = 404 := rfl

/-- C7 (amended): the Worker backend clear returns 200 regardless of
whether the session exists, afterwards no row (and hence no turn)
remains under the id — a subsequent history read is a 404 — and
clearing twice is identical to clearing once; the Express controller
variant instead surfaces a 404 when the session is unknown. -/
theorem c7_amended_worker_clear_idempotent (env : Env) (db : Db) (sid : String)
    (hdel : env.deleteFails = false) (hr : env.historyReadFails = false) :
    (clearChatSession env db sid).1 = Except.ok (sid, "cleared") ∧
    findRow (clearChatSession env db sid).2.sessions sid = none ∧
    getChatHistory env (clearChatSession env db sid).2 sid =
      Except.error ⟨404, "Chat session not found"⟩ ∧
    clearChatSession env (clearChatSession env db sid).2 sid =
      clearChatSession env db sid := by
  have hnone : findRow (db.sessions.filter (fun r => r.id != sid)) sid = none := by
    rw [findRow, List.find?_eq_none]
    intro a ha
    have := (List.mem_filter.mp ha).2
    simpa using this
  refine ⟨?_, ?_, ?_, ?_⟩
  · simp [clearChatSession, hdel]
  · simpa [clearChatSession, hdel] using hnone
  · simp only [clearChatSession, hdel, Bool.false_eq_true, if_false]
    simp [getChatHistory, hr, hnone]
  · simp [clearChatSession, hdel, List.filter_filter]

/-- Witness for C7 (amended) at a store holding one session. -/
theorem c7_amended_witness :
    (clearChatSession envBase dbOneSession "sess-1").1 =
      Except.ok ("sess-1", "cleared") ∧
    findRow (clearChatSession envBase dbOneSession "sess-1").2.sessions "sess-1" = none ∧
    getChatHistory envBase (clearChatSession envBase dbOneSession "sess-1").2 "sess-1" =
      Except.error ⟨404, "Chat session not found"⟩ ∧
    clearChatSession envBase (clearChatSession envBase dbOneSession "sess-1").2 "sess-1" =
      clearChatSession envBase dbOneSession "sess-1" :=
  c7_amended_worker_clear_idempotent envBase dbOneSession "sess-1" rfl rfl

/-- One honest chat exchange (store reads and writes succeed) appends
exactly the user turn and the assistant turn to the stored transcript,
keeping every previously stored turn unchanged. -/
theorem handleChat_step (env : Env) (db : Db) (sid m : String)
    (hs : env.saveFails = false) (hr : env.historyReadFails = false)
    (hsid : sid ≠ "") (hm : m ≠ "") :
    ∃ r : ChatOk,
      (handleChatMessage env db (chatReq sid m)).1 = Except.ok r ∧
      r.sessionId = sid ∧
      ∃ row : SessionRow,
        findRow (handleChatMessage env db (chatReq sid m)).2.1.sessions sid = some row ∧
        row.messages = StoredMessages.valid
          (readStoredTurns db sid ++ [Turn.mk "user" m, Turn.mk "assistant" r.message]) := by
  unfold handleChatMessage chatReq
  simp only [hm, hsid, if_false, reduceIte, hs, hr, Bool.false_eq_true]
  refine ⟨_, rfl, rfl, ?_⟩
  obtain ⟨row, hfind, _, hmsgs⟩ := findRow_upsertRows db.sessions sid
      ((readStoredTurns db sid ++ [Turn.mk "user" m]) ++
        [Turn.mk "assistant" (generateAIResponse env db m
          (searchRelevantServices env db m).1
          (readStoredTurns db sid ++ [Turn.mk "user" m]) none).1]) env.now
  refine ⟨row, ?_, ?_⟩
  · simpa [upsertSession] using hfind
  · simpa [List.append_assoc] using hmsgs

/-- Auxiliary induction for the round trip: starting from a database
that already holds a valid row for the session, running any further
message list keeps the stored prefix and appends exactly the collected
user/assistant pairs. -/
theorem runChats_history_aux (env : Env) (sid : String)
    (hs : env.saveFails = false) (hr : env.historyReadFails = false)
    (hsid : sid ≠ "") :
    ∀ (msgs : List String), (∀ m ∈ msgs, m ≠ "") →
    ∀ (db : Db) (row : SessionRow) (l : List Turn),
      findRow db.sessions sid = some row → row.messages = StoredMessages.valid l →
      getChatHistory env (runChatsAcc env db sid msgs).1 sid =
        Except.ok (sid, l ++ (runChatsAcc env db sid msgs).2) := by
  intro msgs
  induction msgs with
  | nil =>
      intro _ db row l hfind hmsgs
      simp [runChatsAcc, getChatHistory, hr, hfind, hmsgs]
  | cons m ms ih =>
      intro hall db row l hfind hmsgs
      obtain ⟨r, hok, hrsid, row1, hfind1, hmsgs1⟩ :=
        handleChat_step env db sid m hs hr hsid (hall m (by simp))
      have hread : readStoredTurns db sid = l := by
        simp [readStoredTurns, hfind, hmsgs]
      rw [hread] at hmsgs1
      have hrest := ih (fun x hx => hall x (by simp [hx]))
        (handleChatMessage env db (chatReq sid m)).2.1 row1
        (l ++ [Turn.mk "user" m, Turn.mk "assistant" r.message]) hfind1 hmsgs1
      simp only [runChatsAcc, hok]
      simpa [List.append_assoc] using hrest

/-- C9: running any non-empty list of non-empty user messages through
the chat pipeline on one session (with the store healthy) and then
reading the history returns exactly the previously stored turns followed
by the appended user/assistant turn pairs, in order and with identical
content. -/
theorem c9_append_then_read_round_trip (env : Env) (db : Db) (sid : String)
    (msgs : List String)
    (hs : env.saveFails = false) (hr : env.historyReadFails = false)
    (hsid : sid ≠ "") (hall : ∀ m ∈ msgs, m ≠ "") (hne : msgs ≠ []) :
    getChatHistory env (runChatsAcc env db sid msgs).1 sid =
      Except.ok (sid, readStoredTurns db sid ++ (runChatsAcc env db sid msgs).2) := by
  cases msgs with
  | nil => exact absurd rfl hne
  | cons m ms =>
      obtain ⟨r, hok, hrsid, row1, hfind1, hmsgs1⟩ :=
        handleChat_step env db sid m hs hr hsid (hall m (by simp))
      have hrest := runChats_history_aux env sid hs hr hsid ms
        (fun x hx => hall x (by simp [hx]))
        (handleChatMessage env db (chatReq sid m)).2.1 row1
        (readStoredTurns db sid ++ [Turn.mk "user" m, Turn.mk "assistant" r.message])
        hfind1 hmsgs1
      simp only [runChatsAcc, hok]
      simpa [List.append_assoc] using hrest

/-- Witness for C9: two turns on a fresh session. -/
theorem c9_round_trip_witness :
    getChatHistory envBase (runChatsAcc envBase dbEmpty "s1" ["a", "b"]).1 "s1" =
      Except.ok ("s1", readStoredTurns dbEmpty "s1" ++
        (runChatsAcc envBase dbEmpty "s1" ["a", "b"]).2) :=
  c9_append_then_read_round_trip envBase dbEmpty "s1" ["a", "b"] rfl rfl (by decide)
    (by decide) (by decide)

/-- C10: when the history read fails or the stored `messages` column is
malformed, the request still succeeds and the final upsert overwrites
the stored transcript wholesale with exactly the new user turn and the
assistant reply, discarding whatever was stored before. -/
theorem c10_bad_history_overwritten (env : Env) (db : Db) (req : ChatRequest)
    (m sid : String)
    (hm : req.message = MsgField.str m) (hne : m ≠ "")
    (hsid : req.sessionId = some sid) (hsne : sid ≠ "")
    (hs : env.saveFails = false)
    (hbad : env.historyReadFails = true ∨
      (∃ row, findRow db.sessions sid = some row ∧
        row.messages = StoredMessages.malformed)) :
    ∃ ok : ChatOk, (handleChatMessage env db req).1 = Except.ok ok ∧
      ∃ row : SessionRow,
        findRow (handleChatMessage env db req).2.1.sessions sid = some row ∧
        row.messages = StoredMessages.valid
          [Turn.mk "user" m, Turn.mk "assistant" ok.message] := by
  unfold handleChatMessage
  rw [hm, hsid]
  simp only [hne, hsne, if_false, reduceIte, hs, Bool.false_eq_true]
  have hhist : (if env.historyReadFails = true then [] else readStoredTurns db sid) =
      ([] : List Turn) := by
    cases hrf : env.historyReadFails with
    | true => simp
    | false =>
        simp only [Bool.false_eq_true, if_false]
        rcases hbad with h | ⟨row, hfind, hmsgs⟩
        · rw [hrf] at h; exact absurd h (by simp)
        · simp [readStoredTurns, hfind, hmsgs]
  rw [hhist]
  refine ⟨_, rfl, ?_⟩
  obtain ⟨row, hfind, _, hmsgs⟩ := findRow_upsertRows db.sessions sid
      (([] ++ [Turn.mk "user" m]) ++
        [Turn.mk "assistant" (generateAIResponse env db m
          (searchRelevantServices env db m).1
          ([] ++ [Turn.mk "user" m]) req.model).1]) env.now
  refine ⟨row, ?_, ?_⟩
  · simpa [upsertSession] using hfind
  · simpa using hmsgs

/-- Witness for C10 at a stored session whose `messages` column is
malformed JSON. -/
theorem c10_bad_history_overwritten_witness :
    ∃ ok : ChatOk,
      (handleChatMessage envBase dbMalformed
          ⟨MsgField.str "hi", some "sess-bad", none⟩).1 = Except.ok ok ∧
      ∃ row : SessionRow,
        findRow (handleChatMessage envBase dbMalformed
            ⟨MsgField.str "hi", some "sess-bad", none⟩).2.1.sessions "sess-bad" =
          some row ∧
        row.messages = StoredMessages.valid
          [Turn.mk "user" "hi", Turn.mk "assistant" ok.message] :=
  c10_bad_history_overwritten envBase dbMalformed
    ⟨MsgField.str "hi", some "sess-bad", none⟩ "hi" "sess-bad" rfl (by decide) rfl
    (by decide) rfl
    (Or.inr ⟨⟨"sess-bad", StoredMessages.malformed, 0, 0⟩, rfl, rfl⟩)
